import Mathlib

/-!
Verification of the billing-event processing pipeline of the
edx/enterprise-access repository, shallowly embedded in Lean 4.

The embedding covers:
* the `CheckoutIntent` state machine and the PATCH-path state validation
  (`CheckoutIntentUpdateRequestSerializer.validate_state` in
  `enterprise_access/apps/api/serializers/customer_billing.py`);
* the Stripe event dispatcher and the invoice-paid /
  subscription-updated handlers of
  `enterprise_access/apps/customer_billing/stripe_event_handlers.py`
  (the handler module itself is absent from the source snapshot; its
  behavior is modelled from the specification and pinned against the
  repository's unit tests in
  `customer_billing/tests/test_stripe_event_handlers.py`);
* the renewal ledger (`SelfServiceSubscriptionRenewal`) and the
  cascade `cancel_all_future_plans`.

Databases become lists inside an explicit `BillingState`; external side
effects (notification tasks, license-manager RPC calls) become an
explicit effect trace; fallible code returns `Except`.
-/

namespace EnterpriseAccess

/-- The five lifecycle states of a `CheckoutIntent`
(`CheckoutIntentState` in `customer_billing/constants.py`). -/
inductive CheckoutIntentState where
  | created
  | paid
  | fulfilled
  | erroredStripeCheckout
  | erroredProvisioning
deriving DecidableEq, Repr

/-- Modelled from the spec: `ALLOWED_CHECKOUT_INTENT_STATE_TRANSITIONS`
of `customer_billing/constants.py` is absent from the source snapshot;
this is the allowed-transition table given verbatim in section 4.2 of the
specification.  The Python value is a dict read with `.get(current, [])`,
so a state with no entry (such as `fulfilled`) maps to the empty list. -/
def ALLOWED_CHECKOUT_INTENT_STATE_TRANSITIONS :
    CheckoutIntentState → List CheckoutIntentState
  | .created => [.paid, .erroredStripeCheckout]
  | .paid => [.fulfilled, .erroredProvisioning]
  | .erroredStripeCheckout => [.paid]
  | .erroredProvisioning => [.paid]
  | .fulfilled => []

/-- `CheckoutIntentUpdateRequestSerializer.validate_state`
(`api/serializers/customer_billing.py`, lines 164-177).  `inst` is
`none` when the serializer has no bound instance (creation); a
`ValidationError` is raised exactly when the instance exists, the
requested value differs from the current state, and the value is not in
the allowed-transition list for the current state. -/
def validate_state (inst : Option CheckoutIntentState)
    (value : CheckoutIntentState) : Except String CheckoutIntentState :=
  match inst with
  | some current =>
      if current ≠ value ∧
          value ∉ ALLOWED_CHECKOUT_INTENT_STATE_TRANSITIONS current then
        Except.error "Invalid state transition"
      else
        Except.ok value
  | none => Except.ok value

/-- The stored state after a PATCH request that tries to move
`current` to `value`: the serializer validates first, so a rejected
request leaves the stored state unchanged, and an accepted one stores
the requested value. -/
def patched_state (current value : CheckoutIntentState) :
    CheckoutIntentState :=
  match validate_state (some current) value with
  | Except.ok v => v
  | Except.error _ => current

/-- Dynamic dict-shaped Stripe payload values, as accessed by the
handlers through nested `.get()` chains. -/
inductive JsonVal where
  | null
  | str (s : String)
  | num (n : Int)
  | boolean (b : Bool)
  | arr (elems : List JsonVal)
  | obj (fields : List (String × JsonVal))

/-- First binding of a key in an association list of payload fields. -/
def lookupField : List (String × JsonVal) → String → Option JsonVal
  | [], _ => none
  | (k, v) :: rest, key => if k == key then some v else lookupField rest key

/-- Defensive `.get(key)` on a payload value: any non-dict value yields
`none` (the Python guards catch the corresponding TypeError / missing
key and treat it as absence). -/
def jsonGet : JsonVal → String → Option JsonVal
  | .obj fields, key => lookupField fields key
  | _, _ => none

/-- The line-item parent-type marker that identifies a
subscription-driven invoice (`INVOICE_PAID_PARENT_TYPE_IDENTIFIER` in
`customer_billing/constants.py`; the repository's tests pin the value
`subscription_item_details`). -/
def INVOICE_PAID_PARENT_TYPE_IDENTIFIER : String :=
  "subscription_item_details"

/-- First entry of `invoice.lines.data`, or `none` when any step of the
nested access fails (missing key, wrong shape, empty list). -/
def firstInvoiceLine (invoice : JsonVal) : Option JsonVal :=
  match jsonGet invoice "lines" with
  | some lines =>
      match jsonGet lines "data" with
      | some (.arr (first :: _)) => some first
      | _ => none
  | none => none

/-- Modelled from the spec: `_valid_invoice_paid_type` of
`stripe_event_handlers.py` (absent from the source snapshot).  The shape
guard for invoice-paid events: true exactly when
`lines.data[0].parent.type` exists and equals the subscription marker;
every malformed or missing nested shape yields false instead of
raising. -/
def valid_invoice_paid_type (invoice : JsonVal) : Bool :=
  match firstInvoiceLine invoice with
  | some line =>
      match jsonGet line "parent" with
      | some parent =>
          match jsonGet parent "type" with
          | some (.str t) => t == INVOICE_PAID_PARENT_TYPE_IDENTIFIER
          | _ => false
      | none => false
  | none => false

/-- One row of the `CheckoutIntent` table, restricted to the fields the
event pipeline reads and writes. -/
structure CheckoutIntent where
  id : Nat
  state : CheckoutIntentState
  stripeCustomerId : Option String
deriving DecidableEq, Repr

/-- One row of the `SelfServiceSubscriptionRenewal` ledger: a
trial-to-paid (or paid-to-paid) transition candidate.  `renewalOpId` is
`subscription_plan_renewal_id`, the operation id assigned by the
downstream licensing service; `processedAt` is null until the renewal
has been executed downstream.  Plan ids stand in for plan uuids. -/
structure SelfServiceSubscriptionRenewal where
  checkoutIntentId : Nat
  priorPlanId : Nat
  renewedPlanId : Nat
  renewalOpId : Nat
  processedAt : Option Nat
deriving DecidableEq, Repr

/-- One row of the `StripeEventSummary` projection, restricted to the
fields the subscription-updated handler compares against. -/
structure StripeEventSummary where
  subscriptionId : String
  subscriptionStatus : String
  cancelAt : Option Nat
  defaultPaymentMethod : Option String
  createdAt : Nat
deriving DecidableEq, Repr

/-- The durable application state touched by the event pipeline.
`persistedEventIds` records raw-event storage (`StripeEventData` rows);
`handledEventIds` records events whose `handled_at` marker is set. -/
structure BillingState where
  intents : List CheckoutIntent
  renewals : List SelfServiceSubscriptionRenewal
  summaries : List StripeEventSummary
  persistedEventIds : List String
  handledEventIds : List String
deriving DecidableEq, Repr

/-- External side effects fired by the handlers: downstream
license-manager RPC calls and fire-and-forget notification tasks. -/
inductive SideEffect where
  | processRenewal (renewalOpId : Nat)
  | updatePlan (planId : Nat) (isActive : Bool)
  | paymentReceiptEmail (invoiceId : String)
  | trialEndEmail (subscriptionId : String) (checkoutIntentId : Nat)
  | trialCancellationEmail (checkoutIntentId : Nat) (cancelAt : Nat)
  | billingErrorEmail (checkoutIntentId : Nat)
  | rearmPendingPayment (subscriptionId : String)
deriving DecidableEq, Repr

/-- The downstream license-manager client, abstracted by which calls
succeed; a false entry means the corresponding RPC raises. -/
structure LicenseManagerApiClient where
  processRenewalSucceeds : Nat → Bool
  updatePlanSucceeds : Nat → Bool

/-- Exceptions the handlers can raise: a malformed checkout-intent id
in the event metadata (Python `ValueError`), or a downstream
license-manager RPC failure. -/
inductive HandlerError where
  | valueError
  | licenseManagerError
deriving DecidableEq, Repr

/-- The `checkout_intent_id` reference carried in the subscription
metadata of an event: either it does not parse as an integer, or it
parses to an id that may or may not exist. -/
inductive IntentRef where
  | malformed
  | ref (id : Nat)
deriving DecidableEq, Repr

/-- An invoice-paid event, with the typed fields the handler reads and
the raw invoice payload for the shape guard. -/
structure InvoicePaidEvent where
  eventId : String
  invoiceId : String
  total : Int
  customerId : String
  subscriptionId : String
  intentRef : IntentRef
  payload : JsonVal

/-- A subscription-updated event, reduced to the fields the handler
compares against the previously recorded summary. -/
structure SubscriptionUpdatedEvent where
  eventId : String
  subscriptionId : String
  status : String
  cancelAt : Option Nat
  defaultPaymentMethod : Option String
  intentRef : IntentRef
  createdAt : Nat

/-- An inbound webhook event, keyed by type as the dispatcher routes it. -/
inductive StripeEvent where
  | invoicePaid (ev : InvoicePaidEvent)
  | subscriptionUpdated (ev : SubscriptionUpdatedEvent)
  | unknownType (eventId : String)

/-- The renewal rows owned by one checkout intent, in ledger order. -/
def renewalsFor (st : BillingState) (intentId : Nat) :
    List SelfServiceSubscriptionRenewal :=
  st.renewals.filter (fun r => r.checkoutIntentId == intentId)

/-- The most recent renewal row for one checkout intent. -/
def latestRenewal (st : BillingState) (intentId : Nat) :
    Option SelfServiceSubscriptionRenewal :=
  (renewalsFor st intentId).getLast?

/-- Set `processed_at` on a renewal row (the save after a successful
downstream renewal call). -/
def markRenewalProcessed (st : BillingState)
    (r : SelfServiceSubscriptionRenewal) (now : Nat) : BillingState :=
  { st with
    renewals := st.renewals.map (fun x =>
      if x = r then { x with processedAt := some now } else x) }

/-- `CheckoutIntent.mark_as_paid`: a `created` intent moves to `paid`
and records the processor customer id; any other state is left alone
(duplicate deliveries are expected and must be no-ops). -/
def mark_as_paid (intent : CheckoutIntent) (customerId : String) :
    CheckoutIntent :=
  if intent.state = CheckoutIntentState.created then
    { intent with
      state := CheckoutIntentState.paid
      stripeCustomerId := some customerId }
  else intent

/-- Store an updated intent row back into the state. -/
def storeIntent (st : BillingState) (intent : CheckoutIntent) :
    BillingState :=
  { st with
    intents := st.intents.map (fun x => if x.id == intent.id then intent else x) }

/-- `persist_stripe_event`: durably record the raw event. -/
def persist_stripe_event (st : BillingState) (eventId : String) :
    BillingState :=
  { st with persistedEventIds := st.persistedEventIds ++ [eventId] }

/-- Set the `handled_at` marker once a handler completed without error. -/
def markHandled (st : BillingState) (eventId : String) : BillingState :=
  { st with handledEventIds := st.handledEventIds ++ [eventId] }

/-- Keep whichever of two summaries was created later on the processor
side (ties go to the right argument, i.e. the row seen later). -/
def pickLater (acc : Option StripeEventSummary) (s : StripeEventSummary) :
    Option StripeEventSummary :=
  match acc with
  | none => some s
  | some best => if best.createdAt ≤ s.createdAt then some s else some best

/-- The previously recorded summary for a subscription id: among the
summaries for that subscription created strictly before the inbound
event, the one with the greatest processor-side creation timestamp
(ordering uses `stripe_event_created_at`, not receipt order). -/
def prevSummaryFor (st : BillingState) (subId : String) (beforeTs : Nat) :
    Option StripeEventSummary :=
  (st.summaries.filter
      (fun s => s.subscriptionId == subId && s.createdAt < beforeTs)).foldl
    pickLater none

/-- The cancellation timestamp in the previously recorded summary
(null when no prior summary exists). -/
def prevCancelAt (st : BillingState) (subId : String) (beforeTs : Nat) :
    Option Nat :=
  match prevSummaryFor st subId beforeTs with
  | some s => s.cancelAt
  | none => none

/-- Modelled from the spec: `cancel_all_future_plans` of
`stripe_event_handlers.py` (absent from the source snapshot).  Walk the
renewal chain of the intent over both processed and unprocessed rows,
deactivate every distinct renewed-plan id downstream once, and return
the list of deactivated plan ids. -/
def cancel_all_future_plans (st : BillingState) (intentId : Nat) :
    List Nat × List SideEffect :=
  let plans := ((renewalsFor st intentId).map (fun r => r.renewedPlanId)).dedup
  (plans, plans.map (fun p => SideEffect.updatePlan p false))

/-- Summary row projected out of a subscription-updated payload. -/
def summaryOfSubscriptionUpdate (ev : SubscriptionUpdatedEvent) :
    StripeEventSummary :=
  { subscriptionId := ev.subscriptionId
    subscriptionStatus := ev.status
    cancelAt := ev.cancelAt
    defaultPaymentMethod := ev.defaultPaymentMethod
    createdAt := ev.createdAt }

/-- Modelled from the spec: the invoice-paid handler of
`stripe_event_handlers.py` (absent from the source snapshot), following
section 4.3 of the specification and the repository's tests.  Steps:
resolve the owning intent (a malformed id raises `ValueError`; per the
tests, a well-formed id with no matching row is logged and the handler
returns without changes); move a `created` intent to `paid`; dispatch a
payment receipt when the total is non-zero; then reconcile the latest
renewal row: an unprocessed renewal is executed downstream
(`process_subscription_plan_renewal`), marked processed on success, its
renewed plan reactivated and a trial-ended notification sent, while an
already-processed renewal only has its renewed plan reactivated.  A
downstream failure raises; the error carries the state at the moment of
the raise (the enclosing transaction never commits it). -/
def handle_invoice_paid (client : LicenseManagerApiClient) (now : Nat)
    (st : BillingState) (ev : InvoicePaidEvent) :
    Except (HandlerError × BillingState) (BillingState × List SideEffect) :=
  match ev.intentRef with
  | .malformed => Except.error (HandlerError.valueError, st)
  | .ref intentId =>
      match st.intents.find? (fun i => i.id == intentId) with
      | none => Except.ok (st, [])
      | some intent =>
          let st1 := storeIntent st (mark_as_paid intent ev.customerId)
          let receiptEffects :=
            if ev.total ≠ 0 then [SideEffect.paymentReceiptEmail ev.invoiceId]
            else []
          match latestRenewal st1 intentId with
          | none => Except.ok (st1, receiptEffects)
          | some r =>
              match r.processedAt with
              | some _ =>
                  if client.updatePlanSucceeds r.renewedPlanId then
                    Except.ok (st1, receiptEffects ++
                      [SideEffect.updatePlan r.renewedPlanId true])
                  else
                    Except.error (HandlerError.licenseManagerError, st1)
              | none =>
                  if client.processRenewalSucceeds r.renewalOpId then
                    let st2 := markRenewalProcessed st1 r now
                    if client.updatePlanSucceeds r.renewedPlanId then
                      Except.ok (st2, receiptEffects ++
                        [SideEffect.processRenewal r.renewalOpId,
                         SideEffect.updatePlan r.renewedPlanId true,
                         SideEffect.trialEndEmail ev.subscriptionId intentId])
                    else
                      Except.error (HandlerError.licenseManagerError, st2)
                  else
                    Except.error (HandlerError.licenseManagerError, st1)

/-- Cancellation-scheduled notification effects of a
subscription-updated event: fired exactly when the previously recorded
summary shows no cancellation timestamp and the new payload carries
one (idempotent on the transition, not the state). -/
def cancelEffectsOf (st : BillingState) (ev : SubscriptionUpdatedEvent)
    (intentId : Nat) : List SideEffect :=
  match prevCancelAt st ev.subscriptionId ev.createdAt, ev.cancelAt with
  | none, some t => [SideEffect.trialCancellationEmail intentId t]
  | _, _ => []

/-- Past-due cascade effects of a subscription-updated event: on a
transition into `past_due`, cancel all future plans and send one
billing-error notification. -/
def pastDueEffectsOf (st : BillingState) (ev : SubscriptionUpdatedEvent)
    (intentId : Nat) : List SideEffect :=
  if ev.status == "past_due" &&
      (match prevSummaryFor st ev.subscriptionId ev.createdAt with
       | some s => s.subscriptionStatus != "past_due"
       | none => true) then
    (cancel_all_future_plans st intentId).2 ++
      [SideEffect.billingErrorEmail intentId]
  else []

/-- Payment-method re-arm effects of a subscription-updated event: a
changed default payment method re-arms processor-side pending-payment
behavior (best effort, never raises). -/
def rearmEffectsOf (st : BillingState) (ev : SubscriptionUpdatedEvent) :
    List SideEffect :=
  match prevSummaryFor st ev.subscriptionId ev.createdAt with
  | some s =>
      if s.defaultPaymentMethod != ev.defaultPaymentMethod then
        [SideEffect.rearmPendingPayment ev.subscriptionId]
      else []
  | none => []

/-- Modelled from the spec: the subscription-updated handler of
`stripe_event_handlers.py` (absent from the source snapshot), following
section 4.4 of the specification.  Each responsibility compares the new
payload against the previously recorded summary for the same
subscription id (ordered by processor-side event creation timestamp):
a cancellation timestamp newly set sends a one-time
cancellation-scheduled notification; a transition into past-due
cascade-cancels all future plans and sends a billing-error
notification; a changed default payment method re-arms processor-side
pending-payment behavior (best effort).  The event's own summary row is
then recorded. -/
def handle_subscription_updated (st : BillingState)
    (ev : SubscriptionUpdatedEvent) :
    Except (HandlerError × BillingState) (BillingState × List SideEffect) :=
  match ev.intentRef with
  | .malformed => Except.error (HandlerError.valueError, st)
  | .ref intentId =>
      match st.intents.find? (fun i => i.id == intentId) with
      | none => Except.ok (st, [])
      | some _ =>
          Except.ok
            ({ st with
               summaries :=
                 st.summaries ++ [summaryOfSubscriptionUpdate ev] },
              cancelEffectsOf st ev intentId ++
                pastDueEffectsOf st ev intentId ++ rearmEffectsOf st ev)

/-- Modelled from the spec: `StripeEventHandler.dispatch` of
`stripe_event_handlers.py` (absent from the source snapshot).  Routes
by event type; unknown types are a no-op.  Invoice-paid events failing
the shape guard are discarded before any persistence.  Otherwise the
raw event is persisted, the type handler runs, and on success the event
is marked handled; handler exceptions are not swallowed. -/
def dispatch (client : LicenseManagerApiClient) (now : Nat)
    (st : BillingState) :
    StripeEvent →
      Except (HandlerError × BillingState) (BillingState × List SideEffect)
  | .invoicePaid ev =>
      if valid_invoice_paid_type ev.payload then
        match handle_invoice_paid client now
            (persist_stripe_event st ev.eventId) ev with
        | Except.ok (st', effs) => Except.ok (markHandled st' ev.eventId, effs)
        | Except.error e => Except.error e
      else Except.ok (st, [])
  | .subscriptionUpdated ev =>
      match handle_subscription_updated
          (persist_stripe_event st ev.eventId) ev with
      | Except.ok (st', effs) => Except.ok (markHandled st' ev.eventId, effs)
      | Except.error e => Except.error e
  | .unknownType _ => Except.ok (st, [])

/-- Whether a side effect is a downstream renewal-processing RPC call. -/
def isProcessRenewalCall : SideEffect → Bool
  | .processRenewal _ => true
  | _ => false

/-- Whether a side effect is a trial-ended notification. -/
def isTrialEndEmail : SideEffect → Bool
  | .trialEndEmail _ _ => true
  | _ => false

/-- Whether a side effect is a payment-receipt notification. -/
def isReceiptEmail : SideEffect → Bool
  | .paymentReceiptEmail _ => true
  | _ => false

/-- Whether a side effect is a cancellation-scheduled notification. -/
def isCancelScheduledEmail : SideEffect → Bool
  | .trialCancellationEmail _ _ => true
  | _ => false

/-- Number of downstream renewal-processing RPC calls in a trace. -/
def numProcessRenewalCalls (effs : List SideEffect) : Nat :=
  (effs.filter isProcessRenewalCall).length

/-- Number of trial-ended notifications in a trace. -/
def numTrialEndEmails (effs : List SideEffect) : Nat :=
  (effs.filter isTrialEndEmail).length

/-- Number of payment-receipt notifications in a trace. -/
def numReceiptEmails (effs : List SideEffect) : Nat :=
  (effs.filter isReceiptEmail).length

/-- Number of cancellation-scheduled notifications in a trace. -/
def numCancelScheduledEmails (effs : List SideEffect) : Nat :=
  (effs.filter isCancelScheduledEmail).length

/-- Whether a side effect is a plan-reactivation call
(`update_subscription_plan` with `is_active=True`). -/
def isActivatePlanCall : SideEffect → Bool
  | .updatePlan _ true => true
  | _ => false

/-- Number of plan-reactivation calls in a trace. -/
def numActivatePlanCalls (effs : List SideEffect) : Nat :=
  (effs.filter isActivatePlanCall).length

/-- A license-manager client whose calls all succeed. -/
def exClient : LicenseManagerApiClient :=
  { processRenewalSucceeds := fun _ => true
    updatePlanSucceeds := fun _ => true }

/-- A license-manager client whose renewal-processing call raises. -/
def exClientRenewalFails : LicenseManagerApiClient :=
  { processRenewalSucceeds := fun _ => false
    updatePlanSucceeds := fun _ => true }

/-- A concrete checkout intent in the `created` state. -/
def exIntent : CheckoutIntent :=
  { id := 1, state := CheckoutIntentState.created, stripeCustomerId := none }

/-- A concrete unprocessed renewal row for intent 1. -/
def exRenewal : SelfServiceSubscriptionRenewal :=
  { checkoutIntentId := 1, priorPlanId := 10, renewedPlanId := 11
    renewalOpId := 555, processedAt := none }

/-- The same renewal row, already processed. -/
def exRenewalDone : SelfServiceSubscriptionRenewal :=
  { exRenewal with processedAt := some 3 }

/-- An invoice payload carrying the subscription line-item marker. -/
def exPayloadValid : JsonVal :=
  JsonVal.obj [("lines", JsonVal.obj [("data", JsonVal.arr
    [JsonVal.obj [("parent", JsonVal.obj
      [("type", JsonVal.str INVOICE_PAID_PARENT_TYPE_IDENTIFIER)])]])])]

/-- An invoice payload whose line-item parent type is the unrelated
one-off invoice-item marker. -/
def exPayloadWrongType : JsonVal :=
  JsonVal.obj [("lines", JsonVal.obj [("data", JsonVal.arr
    [JsonVal.obj [("parent", JsonVal.obj
      [("type", JsonVal.str "invoice_item_details")])]])])]

/-- A concrete invoice-paid event for intent 1 with non-zero total. -/
def exInvoiceEvent : InvoicePaidEvent :=
  { eventId := "evt_1", invoiceId := "in_1", total := 5000
    customerId := "cus_1", subscriptionId := "sub_1"
    intentRef := IntentRef.ref 1, payload := exPayloadValid }

/-- An invoice-paid event failing the shape guard. -/
def exInvoiceEventBadShape : InvoicePaidEvent :=
  { exInvoiceEvent with eventId := "evt_bad", payload := exPayloadWrongType }

/-- An invoice-paid event whose metadata points at an intent id with no
matching row. -/
def exInvoiceEventGhost : InvoicePaidEvent :=
  { exInvoiceEvent with
    eventId := "evt_ghost",
    intentRef := IntentRef.ref 99999 }

/-- An invoice-paid event whose intent id does not parse. -/
def exInvoiceEventMalformed : InvoicePaidEvent :=
  { exInvoiceEvent with
    eventId := "evt_malformed",
    intentRef := IntentRef.malformed }

/-- State with intent 1 and one unprocessed renewal. -/
def exStateUnprocessed : BillingState :=
  { intents := [exIntent], renewals := [exRenewal], summaries := []
    persistedEventIds := [], handledEventIds := [] }

/-- State with intent 1 and one processed renewal. -/
def exStateProcessed : BillingState :=
  { exStateUnprocessed with renewals := [exRenewalDone] }

/-- State with intent 1 and no renewal rows. -/
def exStateEmpty : BillingState :=
  { exStateUnprocessed with renewals := [] }

/-- A recorded summary for `sub_1` with no cancellation timestamp. -/
def exSummaryNoCancel : StripeEventSummary :=
  { subscriptionId := "sub_1", subscriptionStatus := "trialing"
    cancelAt := none, defaultPaymentMethod := none, createdAt := 5 }

/-- State with intent 1 and one recorded summary without `cancel_at`. -/
def exStateWithSummary : BillingState :=
  { exStateEmpty with summaries := [exSummaryNoCancel] }

/-- A subscription-updated event that newly sets `cancel_at`. -/
def exSubUpdatedEvent : SubscriptionUpdatedEvent :=
  { eventId := "evt_sub_upd", subscriptionId := "sub_1"
    status := "trialing", cancelAt := some 99
    defaultPaymentMethod := none, intentRef := IntentRef.ref 1
    createdAt := 6 }

end EnterpriseAccess

namespace EnterpriseAccess

/-- Claim C10: for a bound instance, `validate_state` raises exactly when
the requested state differs from the current state and the pair is not in
the allowed-transition table; in particular a request equal to the
current state is accepted unchanged even though no self-pair appears in
the table. -/
theorem validate_state_characterization :
    (∀ current value : CheckoutIntentState,
      (validate_state (some current) value).isOk = true ↔
        (current = value ∨
          value ∈ ALLOWED_CHECKOUT_INTENT_STATE_TRANSITIONS current)) ∧
    (∀ s : CheckoutIntentState,
      validate_state (some s) s = Except.ok s ∧
        s ∉ ALLOWED_CHECKOUT_INTENT_STATE_TRANSITIONS s) := by
  constructor
  · intro current value
    by_cases h1 : current = value
    · subst h1
      simp [validate_state, Except.isOk, Except.toBool]
    · by_cases h2 : value ∈ ALLOWED_CHECKOUT_INTENT_STATE_TRANSITIONS current
      · simp [validate_state, h1, h2, Except.isOk, Except.toBool]
      · simp [validate_state, h1, h2, Except.isOk, Except.toBool]
  · intro s
    refine ⟨by simp [validate_state], ?_⟩
    cases s <;> decide

/-- Claim C10 witness: the self-pair `fulfilled → fulfilled` is accepted. -/
theorem validate_state_characterization_witness :
    (validate_state (some CheckoutIntentState.fulfilled)
        CheckoutIntentState.fulfilled).isOk = true :=
  (validate_state_characterization.1 CheckoutIntentState.fulfilled
    CheckoutIntentState.fulfilled).mpr (Or.inl rfl)

/-- Claim C5 counterexample: the pair `(created, created)` is not in the
allowed-transition table, yet the serializer accepts it without a
validation error, so the claim that every pair outside the table is
rejected is false. -/
theorem self_transition_accepted_cx :
    CheckoutIntentState.created ∉
      ALLOWED_CHECKOUT_INTENT_STATE_TRANSITIONS CheckoutIntentState.created ∧
    validate_state (some CheckoutIntentState.created)
        CheckoutIntentState.created =
      Except.ok CheckoutIntentState.created := by
  constructor
  · decide
  · simp [validate_state]

/-- Claim C5 (amended): for every pair of distinct states whose requested
state is not in the allowed-transition list of the current state, the
serializer raises a validation error and the stored state is left
unchanged.  (The amendment excludes the self-pairs, which the code
accepts as no-ops.) -/
theorem invalid_transition_rejected
    (current value : CheckoutIntentState)
    (hne : current ≠ value)
    (hnot : value ∉ ALLOWED_CHECKOUT_INTENT_STATE_TRANSITIONS current) :
    validate_state (some current) value =
      Except.error "Invalid state transition" ∧
    patched_state current value = current := by
  have hval : validate_state (some current) value =
      Except.error "Invalid state transition" := by
    simp [validate_state, hne, hnot]
  exact ⟨hval, by simp [patched_state, hval]⟩

/-- Claim C5 witness: `fulfilled → paid` is outside the table; the
request is rejected and the stored state stays `fulfilled`. -/
theorem invalid_transition_rejected_witness :
    CheckoutIntentState.fulfilled ≠ CheckoutIntentState.paid ∧
    CheckoutIntentState.paid ∉
      ALLOWED_CHECKOUT_INTENT_STATE_TRANSITIONS
        CheckoutIntentState.fulfilled ∧
    (validate_state (some CheckoutIntentState.fulfilled)
        CheckoutIntentState.paid =
      Except.error "Invalid state transition" ∧
    patched_state CheckoutIntentState.fulfilled
        CheckoutIntentState.paid = CheckoutIntentState.fulfilled) :=
  ⟨by decide, by decide,
    invalid_transition_rejected CheckoutIntentState.fulfilled
      CheckoutIntentState.paid (by decide) (by decide)⟩

/-- Claim C6: the invoice-paid shape guard returns a boolean and is
defensive: a missing `lines` key, a `lines` value without a usable
`data` list (including `lines` of the wrong type), an empty
`lines.data`, a first line without `parent`, a `parent` without `type`,
and a non-marker `type` all yield `false` rather than raising; and any
invoice-paid event for which the guard is false is discarded by the
dispatcher with no persistence and no side effects. -/
theorem invoice_paid_guard_defensive :
    (∀ inv : JsonVal, jsonGet inv "lines" = none →
      valid_invoice_paid_type inv = false) ∧
    (∀ inv lines : JsonVal, jsonGet inv "lines" = some lines →
      jsonGet lines "data" = none → valid_invoice_paid_type inv = false) ∧
    (∀ inv lines : JsonVal, jsonGet inv "lines" = some lines →
      jsonGet lines "data" = some (JsonVal.arr []) →
      valid_invoice_paid_type inv = false) ∧
    (∀ inv line : JsonVal, firstInvoiceLine inv = some line →
      jsonGet line "parent" = none → valid_invoice_paid_type inv = false) ∧
    (∀ inv line parent : JsonVal, firstInvoiceLine inv = some line →
      jsonGet line "parent" = some parent →
      jsonGet parent "type" = none → valid_invoice_paid_type inv = false) ∧
    (∀ (inv line parent : JsonVal) (t : String),
      firstInvoiceLine inv = some line →
      jsonGet line "parent" = some parent →
      jsonGet parent "type" = some (JsonVal.str t) →
      t ≠ INVOICE_PAID_PARENT_TYPE_IDENTIFIER →
      valid_invoice_paid_type inv = false) ∧
    (∀ (client : LicenseManagerApiClient) (now : Nat) (st : BillingState)
      (ev : InvoicePaidEvent), valid_invoice_paid_type ev.payload = false →
      dispatch client now st (StripeEvent.invoicePaid ev) =
        Except.ok (st, [])) := by
  refine ⟨?_, ?_, ?_, ?_, ?_, ?_, ?_⟩
  · intro inv h
    simp [valid_invoice_paid_type, firstInvoiceLine, h]
  · intro inv lines h1 h2
    simp [valid_invoice_paid_type, firstInvoiceLine, h1, h2]
  · intro inv lines h1 h2
    simp [valid_invoice_paid_type, firstInvoiceLine, h1, h2]
  · intro inv line h1 h2
    simp [valid_invoice_paid_type, h1, h2]
  · intro inv line parent h1 h2 h3
    simp [valid_invoice_paid_type, h1, h2, h3]
  · intro inv line parent t h1 h2 h3 hne
    simp [valid_invoice_paid_type, h1, h2, h3, hne]
  · intro client now st ev h
    simp [dispatch, h]

/-- Claim C6 witness: the guard rejects a payload with no `lines` key
and one with the one-off invoice-item marker, and the dispatcher
discards the latter without touching the state. -/
theorem invoice_paid_guard_defensive_witness :
    (jsonGet (JsonVal.obj []) "lines" = none ∧
      valid_invoice_paid_type (JsonVal.obj []) = false) ∧
    (valid_invoice_paid_type exInvoiceEventBadShape.payload = false ∧
      dispatch exClient 0 exStateUnprocessed
          (StripeEvent.invoicePaid exInvoiceEventBadShape) =
        Except.ok (exStateUnprocessed, [])) :=
  ⟨⟨rfl, invoice_paid_guard_defensive.1 (JsonVal.obj []) rfl⟩,
    ⟨by decide,
      invoice_paid_guard_defensive.2.2.2.2.2.2 exClient 0 exStateUnprocessed
        exInvoiceEventBadShape (by decide)⟩⟩

/-- Claim C4: `cancel_all_future_plans` deactivates every distinct
renewed-plan id of the intent's renewal rows (processed or not) exactly
once via the downstream plan-deactivation call, returns exactly the set
of those distinct plan ids, and on an intent with no renewal rows
returns an empty result with zero downstream calls. -/
theorem cancel_all_future_plans_correct (st : BillingState)
    (intentId : Nat) :
    (∀ p : Nat,
      ((cancel_all_future_plans st intentId).2).count
          (SideEffect.updatePlan p false) =
        if p ∈ (renewalsFor st intentId).map (fun r => r.renewedPlanId)
        then 1 else 0) ∧
    ((cancel_all_future_plans st intentId).1).Nodup ∧
    (∀ p : Nat,
      p ∈ (cancel_all_future_plans st intentId).1 ↔
        p ∈ (renewalsFor st intentId).map (fun r => r.renewedPlanId)) ∧
    (renewalsFor st intentId = [] →
      cancel_all_future_plans st intentId = ([], [])) := by
  have hinj :
      Function.Injective (fun p : Nat => SideEffect.updatePlan p false) := by
    intro a b h
    injection h with h1 _
  refine ⟨?_, ?_, ?_, ?_⟩
  · intro p
    show ((((renewalsFor st intentId).map
        (fun r => r.renewedPlanId)).dedup).map
          (fun p => SideEffect.updatePlan p false)).count
        (SideEffect.updatePlan p false) = _
    rw [List.count_map_of_injective _ _ hinj, List.count_dedup]
  · exact List.nodup_dedup _
  · intro p
    exact List.mem_dedup
  · intro h
    simp [cancel_all_future_plans, h]

/-- Claim C4 witness: a chain with a processed trial-to-paid renewal
and an unprocessed paid-to-paid renewal yields exactly the two paid
plans, one deactivation call each; the renewal-free state yields no
calls. -/
theorem cancel_all_future_plans_correct_witness :
    (cancel_all_future_plans
        { exStateUnprocessed with
          renewals := [{ checkoutIntentId := 1, priorPlanId := 10
                         renewedPlanId := 11, renewalOpId := 555
                         processedAt := some 2 },
                       { checkoutIntentId := 1, priorPlanId := 11
                         renewedPlanId := 12, renewalOpId := 556
                         processedAt := none }] } 1).2.count
      (SideEffect.updatePlan 11 false) = 1 ∧
    renewalsFor exStateEmpty 1 = [] ∧
    cancel_all_future_plans exStateEmpty 1 = ([], []) := by
  refine ⟨?_, ?_, ?_⟩
  · have h := (cancel_all_future_plans_correct
      { exStateUnprocessed with
        renewals := [{ checkoutIntentId := 1, priorPlanId := 10
                       renewedPlanId := 11, renewalOpId := 555
                       processedAt := some 2 },
                     { checkoutIntentId := 1, priorPlanId := 11
                       renewedPlanId := 12, renewalOpId := 556
                       processedAt := none }] } 1).1 11
    rw [h]
    decide
  · decide
  · exact (cancel_all_future_plans_correct exStateEmpty 1).2.2.2 (by decide)

theorem latestRenewal_storeIntent (st : BillingState) (x : CheckoutIntent)
    (i : Nat) :
    latestRenewal (storeIntent st x) i = latestRenewal st i := rfl

theorem latestRenewal_markHandled (st : BillingState) (e : String)
    (i : Nat) :
    latestRenewal (markHandled st e) i = latestRenewal st i := rfl

theorem filter_map_eq_map_filter {α : Type} (f : α → α) (p : α → Bool)
    (h : ∀ x, p (f x) = p x) :
    ∀ l : List α, (l.map f).filter p = (l.filter p).map f := by
  intro l
  induction l with
  | nil => rfl
  | cons a l ih =>
    by_cases ha : p a = true
    · simp [List.filter_cons, h, ha, ih]
    · simp [List.filter_cons, h, ha, ih]

theorem getLast?_map_eq {α : Type} (f : α → α) :
    ∀ l : List α, (l.map f).getLast? = (l.getLast?).map f := by
  intro l
  induction l with
  | nil => rfl
  | cons a l ih =>
    cases l with
    | nil => rfl
    | cons b l' => simpa using ih

theorem latestRenewal_markRenewalProcessed (st : BillingState)
    (r : SelfServiceSubscriptionRenewal) (now intentId : Nat)
    (hlatest : latestRenewal st intentId = some r) :
    latestRenewal (markRenewalProcessed st r now) intentId =
      some { r with processedAt := some now } := by
  have hp : ∀ x : SelfServiceSubscriptionRenewal,
      (((if x = r then { x with processedAt := some now } else x) :
          SelfServiceSubscriptionRenewal).checkoutIntentId == intentId) =
        (x.checkoutIntentId == intentId) := by
    intro x
    by_cases hx : x = r
    · subst hx
      simp
    · simp [hx]
  unfold latestRenewal renewalsFor at hlatest ⊢
  unfold markRenewalProcessed
  rw [filter_map_eq_map_filter _ _ hp, getLast?_map_eq, hlatest]
  simp

theorem handle_invoice_paid_eq_unprocessed
    (client : LicenseManagerApiClient) (now : Nat) (st : BillingState)
    (ev : InvoicePaidEvent) (intentId : Nat) (intent : CheckoutIntent)
    (r : SelfServiceSubscriptionRenewal)
    (href : ev.intentRef = IntentRef.ref intentId)
    (hfind : st.intents.find? (fun i => i.id == intentId) = some intent)
    (hlatest : latestRenewal st intentId = some r)
    (hunproc : r.processedAt = none)
    (hrpc : client.processRenewalSucceeds r.renewalOpId = true)
    (hupd : client.updatePlanSucceeds r.renewedPlanId = true) :
    handle_invoice_paid client now st ev =
      Except.ok
        (markRenewalProcessed
            (storeIntent st (mark_as_paid intent ev.customerId)) r now,
          (if ev.total ≠ 0 then [SideEffect.paymentReceiptEmail ev.invoiceId]
           else []) ++
            [SideEffect.processRenewal r.renewalOpId,
             SideEffect.updatePlan r.renewedPlanId true,
             SideEffect.trialEndEmail ev.subscriptionId intentId]) := by
  simp only [handle_invoice_paid, href, hfind, latestRenewal_storeIntent,
    hlatest, hunproc, hrpc, hupd, if_true]

theorem handle_invoice_paid_eq_processed
    (client : LicenseManagerApiClient) (now : Nat) (st : BillingState)
    (ev : InvoicePaidEvent) (intentId : Nat) (intent : CheckoutIntent)
    (r : SelfServiceSubscriptionRenewal) (t : Nat)
    (href : ev.intentRef = IntentRef.ref intentId)
    (hfind : st.intents.find? (fun i => i.id == intentId) = some intent)
    (hlatest : latestRenewal st intentId = some r)
    (hproc : r.processedAt = some t)
    (hupd : client.updatePlanSucceeds r.renewedPlanId = true) :
    handle_invoice_paid client now st ev =
      Except.ok
        (storeIntent st (mark_as_paid intent ev.customerId),
          (if ev.total ≠ 0 then [SideEffect.paymentReceiptEmail ev.invoiceId]
           else []) ++
            [SideEffect.updatePlan r.renewedPlanId true]) := by
  simp only [handle_invoice_paid, href, hfind, latestRenewal_storeIntent,
    hlatest, hproc, hupd, if_true]

theorem handle_invoice_paid_eq_rpcfail
    (client : LicenseManagerApiClient) (now : Nat) (st : BillingState)
    (ev : InvoicePaidEvent) (intentId : Nat) (intent : CheckoutIntent)
    (r : SelfServiceSubscriptionRenewal)
    (href : ev.intentRef = IntentRef.ref intentId)
    (hfind : st.intents.find? (fun i => i.id == intentId) = some intent)
    (hlatest : latestRenewal st intentId = some r)
    (hunproc : r.processedAt = none)
    (hrpc : client.processRenewalSucceeds r.renewalOpId = false) :
    handle_invoice_paid client now st ev =
      Except.error (HandlerError.licenseManagerError,
        storeIntent st (mark_as_paid intent ev.customerId)) := by
  simp only [handle_invoice_paid, href, hfind, latestRenewal_storeIntent,
    hlatest, hunproc, hrpc]
  simp

/-- Claim C1: an invoice-paid event whose intent has an unprocessed
renewal makes the dispatcher call the downstream renewal operation
exactly once, with that renewal's operation id, set `processed_at` on
the renewal, reactivate the renewed plan via a single
`update_subscription_plan(renewed_plan_id, is_active=True)` call, and
send exactly one trial-ended notification. -/
theorem invoice_paid_processes_unprocessed_renewal
    (client : LicenseManagerApiClient) (now : Nat) (st : BillingState)
    (ev : InvoicePaidEvent) (intentId : Nat) (intent : CheckoutIntent)
    (r : SelfServiceSubscriptionRenewal)
    (hguard : valid_invoice_paid_type ev.payload = true)
    (href : ev.intentRef = IntentRef.ref intentId)
    (hfind : st.intents.find? (fun i => i.id == intentId) = some intent)
    (hlatest : latestRenewal st intentId = some r)
    (hunproc : r.processedAt = none)
    (hrpc : client.processRenewalSucceeds r.renewalOpId = true)
    (hupd : client.updatePlanSucceeds r.renewedPlanId = true) :
    ∃ st' effs,
      dispatch client now st (StripeEvent.invoicePaid ev) =
        Except.ok (st', effs) ∧
      numProcessRenewalCalls effs = 1 ∧
      SideEffect.processRenewal r.renewalOpId ∈ effs ∧
      numActivatePlanCalls effs = 1 ∧
      SideEffect.updatePlan r.renewedPlanId true ∈ effs ∧
      numTrialEndEmails effs = 1 ∧
      latestRenewal st' intentId =
        some { r with processedAt := some now } := by
  have hfind' : (persist_stripe_event st ev.eventId).intents.find?
      (fun i => i.id == intentId) = some intent := hfind
  have hlatest' : latestRenewal (persist_stripe_event st ev.eventId)
      intentId = some r := hlatest
  have heq := handle_invoice_paid_eq_unprocessed client now
    (persist_stripe_event st ev.eventId) ev intentId intent r
    href hfind' hlatest' hunproc hrpc hupd
  have hlatest'' : latestRenewal
      (storeIntent (persist_stripe_event st ev.eventId)
        (mark_as_paid intent ev.customerId)) intentId = some r := hlatest
  refine ⟨markHandled
      (markRenewalProcessed
        (storeIntent (persist_stripe_event st ev.eventId)
          (mark_as_paid intent ev.customerId)) r now) ev.eventId,
    (if ev.total ≠ 0 then [SideEffect.paymentReceiptEmail ev.invoiceId]
     else []) ++
      [SideEffect.processRenewal r.renewalOpId,
       SideEffect.updatePlan r.renewedPlanId true,
       SideEffect.trialEndEmail ev.subscriptionId intentId],
    ?_, ?_, ?_, ?_, ?_, ?_, ?_⟩
  · simp only [dispatch, hguard, if_true, heq]
  · by_cases ht : ev.total = 0 <;>
      simp [numProcessRenewalCalls, isProcessRenewalCall, ht]
  · by_cases ht : ev.total = 0 <;> simp [ht]
  · by_cases ht : ev.total = 0 <;>
      simp [numActivatePlanCalls, isActivatePlanCall, ht]
  · by_cases ht : ev.total = 0 <;> simp [ht]
  · by_cases ht : ev.total = 0 <;>
      simp [numTrialEndEmails, isTrialEndEmail, ht]
  · rw [latestRenewal_markHandled]
    exact latestRenewal_markRenewalProcessed _ _ _ _ hlatest''

/-- Claim C1 witness: dispatching a concrete 5000-cent invoice against
the unprocessed-renewal state fires the renewal call 555 once, marks
the renewal processed and reactivates plan 11 with one trial-end
notification. -/
theorem invoice_paid_processes_unprocessed_renewal_witness :
    ∃ st' effs,
      dispatch exClient 7 exStateUnprocessed
          (StripeEvent.invoicePaid exInvoiceEvent) =
        Except.ok (st', effs) ∧
      numProcessRenewalCalls effs = 1 ∧
      SideEffect.processRenewal exRenewal.renewalOpId ∈ effs ∧
      numActivatePlanCalls effs = 1 ∧
      SideEffect.updatePlan exRenewal.renewedPlanId true ∈ effs ∧
      numTrialEndEmails effs = 1 ∧
      latestRenewal st' 1 = some { exRenewal with processedAt := some 7 } :=
  invoice_paid_processes_unprocessed_renewal exClient 7 exStateUnprocessed
    exInvoiceEvent 1 exIntent exRenewal (by decide) (by decide) (by decide)
    (by decide) (by decide) (by decide) (by decide)

/-- Claim C2: once a renewal carries `processed_at`, a further
invoice-paid delivery for the subscription makes zero downstream
renewal-processing calls, only reactivates the already-renewed plan,
and leaves the renewal ledger (hence `processed_at`) unchanged. -/
theorem processed_renewal_not_reprocessed
    (client : LicenseManagerApiClient) (now : Nat) (st : BillingState)
    (ev : InvoicePaidEvent) (intentId : Nat) (intent : CheckoutIntent)
    (r : SelfServiceSubscriptionRenewal) (t : Nat)
    (hguard : valid_invoice_paid_type ev.payload = true)
    (href : ev.intentRef = IntentRef.ref intentId)
    (hfind : st.intents.find? (fun i => i.id == intentId) = some intent)
    (hlatest : latestRenewal st intentId = some r)
    (hproc : r.processedAt = some t)
    (hupd : client.updatePlanSucceeds r.renewedPlanId = true) :
    ∃ st' effs,
      dispatch client now st (StripeEvent.invoicePaid ev) =
        Except.ok (st', effs) ∧
      numProcessRenewalCalls effs = 0 ∧
      numActivatePlanCalls effs = 1 ∧
      SideEffect.updatePlan r.renewedPlanId true ∈ effs ∧
      st'.renewals = st.renewals := by
  have hfind' : (persist_stripe_event st ev.eventId).intents.find?
      (fun i => i.id == intentId) = some intent := hfind
  have hlatest' : latestRenewal (persist_stripe_event st ev.eventId)
      intentId = some r := hlatest
  have heq := handle_invoice_paid_eq_processed client now
    (persist_stripe_event st ev.eventId) ev intentId intent r t
    href hfind' hlatest' hproc hupd
  refine ⟨markHandled
      (storeIntent (persist_stripe_event st ev.eventId)
        (mark_as_paid intent ev.customerId)) ev.eventId,
    (if ev.total ≠ 0 then [SideEffect.paymentReceiptEmail ev.invoiceId]
     else []) ++ [SideEffect.updatePlan r.renewedPlanId true],
    ?_, ?_, ?_, ?_, ?_⟩
  · simp only [dispatch, hguard, if_true, heq]
  · by_cases ht : ev.total = 0 <;>
      simp [numProcessRenewalCalls, isProcessRenewalCall, ht]
  · by_cases ht : ev.total = 0 <;>
      simp [numActivatePlanCalls, isActivatePlanCall, ht]
  · by_cases ht : ev.total = 0 <;> simp [ht]
  · rfl

/-- Claim C2 witness: redelivery against the already-processed renewal
state makes no renewal call and one reactivation of plan 11, leaving
the ledger untouched. -/
theorem processed_renewal_not_reprocessed_witness :
    ∃ st' effs,
      dispatch exClient 8 exStateProcessed
          (StripeEvent.invoicePaid exInvoiceEvent) =
        Except.ok (st', effs) ∧
      numProcessRenewalCalls effs = 0 ∧
      numActivatePlanCalls effs = 1 ∧
      SideEffect.updatePlan exRenewalDone.renewedPlanId true ∈ effs ∧
      st'.renewals = exStateProcessed.renewals :=
  processed_renewal_not_reprocessed exClient 8 exStateProcessed
    exInvoiceEvent 1 exIntent exRenewalDone 3 (by decide) (by decide)
    (by decide) (by decide) (by decide) (by decide)

/-- Claim C3: when the downstream renewal-processing call fails, the
exception propagates out of `dispatch` as a license-manager error, the
renewal ledger at the moment of the raise is unchanged (so the
renewal's `processed_at` is still null), and the event is not marked
handled, so a retried delivery can re-attempt the renewal. -/
theorem renewal_rpc_failure_propagates
    (client : LicenseManagerApiClient) (now : Nat) (st : BillingState)
    (ev : InvoicePaidEvent) (intentId : Nat) (intent : CheckoutIntent)
    (r : SelfServiceSubscriptionRenewal)
    (hguard : valid_invoice_paid_type ev.payload = true)
    (href : ev.intentRef = IntentRef.ref intentId)
    (hfind : st.intents.find? (fun i => i.id == intentId) = some intent)
    (hlatest : latestRenewal st intentId = some r)
    (hunproc : r.processedAt = none)
    (hrpc : client.processRenewalSucceeds r.renewalOpId = false) :
    ∃ stErr,
      dispatch client now st (StripeEvent.invoicePaid ev) =
        Except.error (HandlerError.licenseManagerError, stErr) ∧
      stErr.renewals = st.renewals ∧
      latestRenewal stErr intentId = some r ∧
      stErr.handledEventIds = st.handledEventIds := by
  have hfind' : (persist_stripe_event st ev.eventId).intents.find?
      (fun i => i.id == intentId) = some intent := hfind
  have hlatest' : latestRenewal (persist_stripe_event st ev.eventId)
      intentId = some r := hlatest
  have heq := handle_invoice_paid_eq_rpcfail client now
    (persist_stripe_event st ev.eventId) ev intentId intent r
    href hfind' hlatest' hunproc hrpc
  refine ⟨storeIntent (persist_stripe_event st ev.eventId)
      (mark_as_paid intent ev.customerId), ?_, ?_, ?_, ?_⟩
  · simp only [dispatch, hguard, if_true, heq]
  · rfl
  · exact hlatest
  · rfl

/-- Claim C3 witness: with a failing renewal call, dispatching the
concrete invoice-paid event errors out while renewal 555 still has a
null `processed_at`. -/
theorem renewal_rpc_failure_propagates_witness :
    ∃ stErr,
      dispatch exClientRenewalFails 9 exStateUnprocessed
          (StripeEvent.invoicePaid exInvoiceEvent) =
        Except.error (HandlerError.licenseManagerError, stErr) ∧
      stErr.renewals = exStateUnprocessed.renewals ∧
      latestRenewal stErr 1 = some exRenewal ∧
      stErr.handledEventIds = exStateUnprocessed.handledEventIds :=
  renewal_rpc_failure_propagates exClientRenewalFails 9 exStateUnprocessed
    exInvoiceEvent 1 exIntent exRenewal (by decide) (by decide) (by decide)
    (by decide) (by decide) (by decide)

theorem handle_invoice_paid_eq_norenewal
    (client : LicenseManagerApiClient) (now : Nat) (st : BillingState)
    (ev : InvoicePaidEvent) (intentId : Nat) (intent : CheckoutIntent)
    (href : ev.intentRef = IntentRef.ref intentId)
    (hfind : st.intents.find? (fun i => i.id == intentId) = some intent)
    (hlatest : latestRenewal st intentId = none) :
    handle_invoice_paid client now st ev =
      Except.ok
        (storeIntent st (mark_as_paid intent ev.customerId),
          if ev.total ≠ 0 then [SideEffect.paymentReceiptEmail ev.invoiceId]
          else []) := by
  simp only [handle_invoice_paid, href, hfind, latestRenewal_storeIntent,
    hlatest]

theorem handle_invoice_paid_eq_notfound
    (client : LicenseManagerApiClient) (now : Nat) (st : BillingState)
    (ev : InvoicePaidEvent) (intentId : Nat)
    (href : ev.intentRef = IntentRef.ref intentId)
    (hfind : st.intents.find? (fun i => i.id == intentId) = none) :
    handle_invoice_paid client now st ev = Except.ok (st, []) := by
  simp only [handle_invoice_paid, href, hfind]

theorem handle_invoice_paid_eq_malformed
    (client : LicenseManagerApiClient) (now : Nat) (st : BillingState)
    (ev : InvoicePaidEvent)
    (href : ev.intentRef = IntentRef.malformed) :
    handle_invoice_paid client now st ev =
      Except.error (HandlerError.valueError, st) := by
  simp only [handle_invoice_paid, href]

theorem handle_invoice_paid_eq_updfail_processed
    (client : LicenseManagerApiClient) (now : Nat) (st : BillingState)
    (ev : InvoicePaidEvent) (intentId : Nat) (intent : CheckoutIntent)
    (r : SelfServiceSubscriptionRenewal) (t : Nat)
    (href : ev.intentRef = IntentRef.ref intentId)
    (hfind : st.intents.find? (fun i => i.id == intentId) = some intent)
    (hlatest : latestRenewal st intentId = some r)
    (hproc : r.processedAt = some t)
    (hupd : client.updatePlanSucceeds r.renewedPlanId = false) :
    handle_invoice_paid client now st ev =
      Except.error (HandlerError.licenseManagerError,
        storeIntent st (mark_as_paid intent ev.customerId)) := by
  simp only [handle_invoice_paid, href, hfind, latestRenewal_storeIntent,
    hlatest, hproc, hupd]
  simp

theorem handle_invoice_paid_eq_updfail_unprocessed
    (client : LicenseManagerApiClient) (now : Nat) (st : BillingState)
    (ev : InvoicePaidEvent) (intentId : Nat) (intent : CheckoutIntent)
    (r : SelfServiceSubscriptionRenewal)
    (href : ev.intentRef = IntentRef.ref intentId)
    (hfind : st.intents.find? (fun i => i.id == intentId) = some intent)
    (hlatest : latestRenewal st intentId = some r)
    (hunproc : r.processedAt = none)
    (hrpc : client.processRenewalSucceeds r.renewalOpId = true)
    (hupd : client.updatePlanSucceeds r.renewedPlanId = false) :
    handle_invoice_paid client now st ev =
      Except.error (HandlerError.licenseManagerError,
        markRenewalProcessed
          (storeIntent st (mark_as_paid intent ev.customerId)) r now) := by
  simp only [handle_invoice_paid, href, hfind, latestRenewal_storeIntent,
    hlatest, hunproc, hrpc, hupd, if_true]
  simp

theorem handle_invoice_paid_receipt_shape
    (client : LicenseManagerApiClient) (now : Nat) (st : BillingState)
    (ev : InvoicePaidEvent) (intentId : Nat) (intent : CheckoutIntent)
    (href : ev.intentRef = IntentRef.ref intentId)
    (hfind : st.intents.find? (fun i => i.id == intentId) = some intent) :
    ∀ st' effs, handle_invoice_paid client now st ev = Except.ok (st', effs) →
      ∃ rest, effs =
          (if ev.total ≠ 0 then [SideEffect.paymentReceiptEmail ev.invoiceId]
           else []) ++ rest ∧
        rest.filter isReceiptEmail = [] := by
  intro st' effs heq
  rcases hl : latestRenewal st intentId with _ | r
  · rw [handle_invoice_paid_eq_norenewal client now st ev intentId intent
      href hfind hl] at heq
    simp only [Except.ok.injEq, Prod.mk.injEq] at heq
    exact ⟨[], by simp [heq.2.symm], rfl⟩
  · rcases hp : r.processedAt with _ | t
    · rcases hrpc : client.processRenewalSucceeds r.renewalOpId with _ | _
      · rw [handle_invoice_paid_eq_rpcfail client now st ev intentId intent r
          href hfind hl hp hrpc] at heq
        simp at heq
      · rcases hupd : client.updatePlanSucceeds r.renewedPlanId with _ | _
        · rw [handle_invoice_paid_eq_updfail_unprocessed client now st ev
            intentId intent r href hfind hl hp hrpc hupd] at heq
          simp at heq
        · rw [handle_invoice_paid_eq_unprocessed client now st ev intentId
            intent r href hfind hl hp hrpc hupd] at heq
          simp only [Except.ok.injEq, Prod.mk.injEq] at heq
          refine ⟨[SideEffect.processRenewal r.renewalOpId,
            SideEffect.updatePlan r.renewedPlanId true,
            SideEffect.trialEndEmail ev.subscriptionId intentId],
            heq.2.symm, ?_⟩
          simp [isReceiptEmail]
    · rcases hupd : client.updatePlanSucceeds r.renewedPlanId with _ | _
      · rw [handle_invoice_paid_eq_updfail_processed client now st ev
          intentId intent r t href hfind hl hp hupd] at heq
        simp at heq
      · rw [handle_invoice_paid_eq_processed client now st ev intentId
          intent r t href hfind hl hp hupd] at heq
        simp only [Except.ok.injEq, Prod.mk.injEq] at heq
        refine ⟨[SideEffect.updatePlan r.renewedPlanId true],
          heq.2.symm, ?_⟩
        simp [isReceiptEmail]

/-- Claim C7: a successfully dispatched invoice-paid event with zero
total sends no payment-receipt notification, and one with positive
total sends exactly one payment-receipt notification carrying that
invoice's id. -/
theorem receipt_email_iff_nonzero_total
    (client : LicenseManagerApiClient) (now : Nat) (st : BillingState)
    (ev : InvoicePaidEvent) (intentId : Nat) (intent : CheckoutIntent)
    (hguard : valid_invoice_paid_type ev.payload = true)
    (href : ev.intentRef = IntentRef.ref intentId)
    (hfind : st.intents.find? (fun i => i.id == intentId) = some intent) :
    ∀ st' effs,
      dispatch client now st (StripeEvent.invoicePaid ev) =
        Except.ok (st', effs) →
      (ev.total = 0 → numReceiptEmails effs = 0) ∧
      (0 < ev.total →
        numReceiptEmails effs = 1 ∧
        SideEffect.paymentReceiptEmail ev.invoiceId ∈ effs ∧
        (∀ iid, SideEffect.paymentReceiptEmail iid ∈ effs →
          iid = ev.invoiceId)) := by
  intro st' effs heq
  simp only [dispatch, hguard, if_true] at heq
  have hfind' : (persist_stripe_event st ev.eventId).intents.find?
      (fun i => i.id == intentId) = some intent := hfind
  rcases hh : handle_invoice_paid client now
      (persist_stripe_event st ev.eventId) ev with e | val
  · rw [hh] at heq
    simp at heq
  · obtain ⟨stH, effs0⟩ := val
    rw [hh] at heq
    simp only [Except.ok.injEq, Prod.mk.injEq] at heq
    obtain ⟨h1, h2⟩ := heq
    subst h2
    obtain ⟨rest, hre, hrf⟩ := handle_invoice_paid_receipt_shape client now
      (persist_stripe_event st ev.eventId) ev intentId intent href hfind'
      stH effs0 hh
    subst hre
    constructor
    · intro ht
      simp [numReceiptEmails, List.filter_append, ht, hrf]
    · intro ht
      have htne : ev.total ≠ 0 := ne_of_gt ht
      refine ⟨?_, ?_, ?_⟩
      · simp [numReceiptEmails, List.filter_append, htne, hrf,
          isReceiptEmail]
      · simp [htne]
      · intro iid hmem
        rcases List.mem_append.mp hmem with hmem | hmem
        · simp [htne] at hmem
          exact hmem
        · exfalso
          have : SideEffect.paymentReceiptEmail iid ∈
              rest.filter isReceiptEmail :=
            List.mem_filter.mpr ⟨hmem, rfl⟩
          rw [hrf] at this
          cases this

/-- Claim C7 witness: the concrete 5000-cent invoice yields exactly one
receipt carrying `in_1`. -/
theorem receipt_email_iff_nonzero_total_witness :
    ∃ st' effs,
      dispatch exClient 7 exStateUnprocessed
          (StripeEvent.invoicePaid exInvoiceEvent) =
        Except.ok (st', effs) ∧
      numReceiptEmails effs = 1 ∧
      SideEffect.paymentReceiptEmail exInvoiceEvent.invoiceId ∈ effs := by
  obtain ⟨st', effs, hdisp, -, -, -, -, -, -⟩ :=
    invoice_paid_processes_unprocessed_renewal_witness
  have h := (receipt_email_iff_nonzero_total exClient 7 exStateUnprocessed
    exInvoiceEvent 1 exIntent (by decide) (by decide) (by decide)
    st' effs hdisp).2 (by decide)
  exact ⟨st', effs, hdisp, h.1, h.2.1⟩

/-- Claim C8 counterexample: a well-formed intent reference with no
matching `CheckoutIntent` row does not make `dispatch` raise: the
concrete event referencing id 99999 is handled without error, refuting
the claim that a non-existent id raises. -/
theorem missing_intent_does_not_raise_cx :
    exStateUnprocessed.intents.find? (fun i => i.id == 99999) = none ∧
    (dispatch exClient 0 exStateUnprocessed
        (StripeEvent.invoicePaid exInvoiceEventGhost)).isOk = true := by
  constructor
  · decide
  · decide

/-- Claim C8 (amended): a malformed (non-integer) intent id makes
`dispatch` raise a `ValueError`, leaving every `CheckoutIntent` row
unchanged and the event not marked handled; a well-formed id with no
matching row is instead handled without raising, with no side effects
and every `CheckoutIntent` row unchanged. -/
theorem intent_resolution_error_handling
    (client : LicenseManagerApiClient) (now : Nat) (st : BillingState)
    (ev : InvoicePaidEvent) (intentId : Nat)
    (hguard : valid_invoice_paid_type ev.payload = true) :
    (ev.intentRef = IntentRef.malformed →
      ∃ stErr,
        dispatch client now st (StripeEvent.invoicePaid ev) =
          Except.error (HandlerError.valueError, stErr) ∧
        stErr.intents = st.intents ∧
        stErr.handledEventIds = st.handledEventIds) ∧
    (ev.intentRef = IntentRef.ref intentId →
      st.intents.find? (fun i => i.id == intentId) = none →
      ∃ st',
        dispatch client now st (StripeEvent.invoicePaid ev) =
          Except.ok (st', []) ∧
        st'.intents = st.intents) := by
  constructor
  · intro href
    have heq := handle_invoice_paid_eq_malformed client now
      (persist_stripe_event st ev.eventId) ev href
    refine ⟨persist_stripe_event st ev.eventId, ?_, rfl, rfl⟩
    simp only [dispatch, hguard, if_true, heq]
  · intro href hfind
    have hfind' : (persist_stripe_event st ev.eventId).intents.find?
        (fun i => i.id == intentId) = none := hfind
    have heq := handle_invoice_paid_eq_notfound client now
      (persist_stripe_event st ev.eventId) ev intentId href hfind'
    refine ⟨markHandled (persist_stripe_event st ev.eventId) ev.eventId,
      ?_, rfl⟩
    simp only [dispatch, hguard, if_true, heq]

/-- Claim C8 witness: the malformed-id event raises and leaves the
intents untouched; the ghost-id event is accepted as a no-op. -/
theorem intent_resolution_error_handling_witness :
    (∃ stErr,
      dispatch exClient 0 exStateUnprocessed
          (StripeEvent.invoicePaid exInvoiceEventMalformed) =
        Except.error (HandlerError.valueError, stErr) ∧
      stErr.intents = exStateUnprocessed.intents ∧
      stErr.handledEventIds = exStateUnprocessed.handledEventIds) ∧
    (∃ st',
      dispatch exClient 0 exStateUnprocessed
          (StripeEvent.invoicePaid exInvoiceEventGhost) =
        Except.ok (st', []) ∧
      st'.intents = exStateUnprocessed.intents) :=
  ⟨(intent_resolution_error_handling exClient 0 exStateUnprocessed
      exInvoiceEventMalformed 1 (by decide)).1 (by decide),
    (intent_resolution_error_handling exClient 0 exStateUnprocessed
      exInvoiceEventGhost 99999 (by decide)).2 (by decide) (by decide)⟩

theorem filter_map_eq_nil {α β : Type} (f : α → β) (p : β → Bool)
    (h : ∀ x, p (f x) = false) :
    ∀ l : List α, (l.map f).filter p = [] := by
  intro l
  induction l with
  | nil => rfl
  | cons a l ih => simp [List.filter_cons, h, ih]

theorem pastDue_no_cancel_email (st : BillingState)
    (ev : SubscriptionUpdatedEvent) (intentId : Nat) :
    (pastDueEffectsOf st ev intentId).filter isCancelScheduledEmail = [] := by
  unfold pastDueEffectsOf
  split
  · have h1 : (cancel_all_future_plans st intentId).2.filter
        isCancelScheduledEmail = [] := by
      show ((((renewalsFor st intentId).map
          (fun r => r.renewedPlanId)).dedup).map
            (fun p => SideEffect.updatePlan p false)).filter
          isCancelScheduledEmail = []
      exact filter_map_eq_nil _ _ (fun _ => rfl) _
    rw [List.filter_append, h1]
    rfl
  · rfl

theorem rearm_no_cancel_email (st : BillingState)
    (ev : SubscriptionUpdatedEvent) :
    (rearmEffectsOf st ev).filter isCancelScheduledEmail = [] := by
  unfold rearmEffectsOf
  split
  · split <;> rfl
  · rfl

theorem cancel_effects_count (st : BillingState)
    (ev : SubscriptionUpdatedEvent) (intentId : Nat) :
    ((cancelEffectsOf st ev intentId).filter
        isCancelScheduledEmail).length =
      if prevCancelAt st ev.subscriptionId ev.createdAt = none ∧
          ev.cancelAt.isSome = true then 1 else 0 := by
  unfold cancelEffectsOf
  rcases hpc : prevCancelAt st ev.subscriptionId ev.createdAt with _ | c <;>
    rcases hca : ev.cancelAt with _ | t <;>
      simp [hpc, hca, isCancelScheduledEmail]

theorem foldl_pickLater_none_or_mem :
    ∀ (l : List StripeEventSummary) (acc : Option StripeEventSummary),
      l.foldl pickLater acc = acc ∨ ∃ x ∈ l, l.foldl pickLater acc = some x := by
  intro l
  induction l with
  | nil => intro acc; exact Or.inl rfl
  | cons a l ih =>
    intro acc
    rcases ih (pickLater acc a) with h | ⟨x, hx, h⟩
    · cases acc with
      | none =>
        right
        exact ⟨a, by simp, by simpa [pickLater] using h⟩
      | some b =>
        by_cases hb : b.createdAt ≤ a.createdAt
        · right
          exact ⟨a, by simp, by simpa [pickLater, hb] using h⟩
        · left
          simpa [pickLater, hb] using h
    · right
      exact ⟨x, by simp [hx], by simpa using h⟩

theorem prevSummaryFor_append_latest (st : BillingState)
    (s : StripeEventSummary) (ts : Nat)
    (hlt : s.createdAt < ts)
    (hmax : ∀ x ∈ st.summaries, x.subscriptionId = s.subscriptionId →
      x.createdAt ≤ s.createdAt) :
    prevSummaryFor { st with summaries := st.summaries ++ [s] }
        s.subscriptionId ts = some s := by
  unfold prevSummaryFor
  have hps : (fun x : StripeEventSummary =>
      x.subscriptionId == s.subscriptionId &&
        decide (x.createdAt < ts)) s = true := by
    simp [hlt]
  rw [show ({ st with summaries := st.summaries ++ [s] } :
      BillingState).summaries = st.summaries ++ [s] from rfl]
  rw [List.filter_append]
  rw [show (List.filter (fun x : StripeEventSummary =>
      x.subscriptionId == s.subscriptionId &&
        decide (x.createdAt < ts)) [s]) = [s] by simp [hlt]]
  rw [List.foldl_append]
  rcases foldl_pickLater_none_or_mem
      (st.summaries.filter (fun x : StripeEventSummary =>
        x.subscriptionId == s.subscriptionId &&
          decide (x.createdAt < ts))) none with h | ⟨x, hx, h⟩
  · rw [h]
    rfl
  · rw [h]
    have hx' := List.mem_filter.mp hx
    have hsub : x.subscriptionId = s.subscriptionId := by
      have := hx'.2
      simp only [Bool.and_eq_true, beq_iff_eq, decide_eq_true_eq] at this
      exact this.1
    have hle : x.createdAt ≤ s.createdAt := hmax x hx'.1 hsub
    simp [pickLater, hle]

/-- Claim C9: a subscription-updated event sends a
cancellation-scheduled notification exactly when the previously
recorded summary for the subscription shows no `cancel_at` and the new
payload carries one; if `cancel_at` was already recorded, zero such
notifications go out.  The event's own summary (carrying its
`cancel_at`) is recorded, and becomes the previously recorded summary
for any later delivery, so the same already-set cancellation is never
announced twice. -/
theorem cancel_at_transition_email
    (client : LicenseManagerApiClient) (now : Nat) (st : BillingState)
    (ev : SubscriptionUpdatedEvent) (intentId : Nat)
    (intent : CheckoutIntent)
    (href : ev.intentRef = IntentRef.ref intentId)
    (hfind : st.intents.find? (fun i => i.id == intentId) = some intent) :
    ∃ st' effs,
      dispatch client now st (StripeEvent.subscriptionUpdated ev) =
        Except.ok (st', effs) ∧
      numCancelScheduledEmails effs =
        (if prevCancelAt st ev.subscriptionId ev.createdAt = none ∧
            ev.cancelAt.isSome = true then 1 else 0) ∧
      (∀ t, prevCancelAt st ev.subscriptionId ev.createdAt = none →
        ev.cancelAt = some t →
        SideEffect.trialCancellationEmail intentId t ∈ effs) ∧
      st'.summaries = st.summaries ++ [summaryOfSubscriptionUpdate ev] ∧
      (∀ ts : Nat, ev.createdAt < ts →
        (∀ s ∈ st.summaries, s.subscriptionId = ev.subscriptionId →
          s.createdAt ≤ ev.createdAt) →
        prevSummaryFor st' ev.subscriptionId ts =
          some (summaryOfSubscriptionUpdate ev)) := by
  have hfind' : (persist_stripe_event st ev.eventId).intents.find?
      (fun i => i.id == intentId) = some intent := hfind
  have heq : handle_subscription_updated
      (persist_stripe_event st ev.eventId) ev =
      Except.ok
        ({ persist_stripe_event st ev.eventId with
           summaries := (persist_stripe_event st ev.eventId).summaries ++
             [summaryOfSubscriptionUpdate ev] },
          cancelEffectsOf (persist_stripe_event st ev.eventId) ev intentId ++
            pastDueEffectsOf (persist_stripe_event st ev.eventId) ev
              intentId ++
            rearmEffectsOf (persist_stripe_event st ev.eventId) ev) := by
    simp only [handle_subscription_updated, href, hfind']
  refine ⟨markHandled
      { persist_stripe_event st ev.eventId with
        summaries := (persist_stripe_event st ev.eventId).summaries ++
          [summaryOfSubscriptionUpdate ev] } ev.eventId,
    cancelEffectsOf (persist_stripe_event st ev.eventId) ev intentId ++
      pastDueEffectsOf (persist_stripe_event st ev.eventId) ev intentId ++
      rearmEffectsOf (persist_stripe_event st ev.eventId) ev,
    ?_, ?_, ?_, ?_, ?_⟩
  · simp only [dispatch, heq]
  · simp only [numCancelScheduledEmails, List.filter_append,
      pastDue_no_cancel_email, rearm_no_cancel_email, List.append_nil]
    rw [cancel_effects_count]
    rfl
  · intro t hpc hca
    have hpc' : prevCancelAt (persist_stripe_event st ev.eventId)
        ev.subscriptionId ev.createdAt = none := hpc
    simp [cancelEffectsOf, hpc', hca]
  · rfl
  · intro ts hts hmax
    have h := prevSummaryFor_append_latest st
      (summaryOfSubscriptionUpdate ev) ts hts
      (fun x hx hsub => hmax x hx hsub)
    exact h

/-- Claim C9 witness: against a prior summary with no `cancel_at`, the
concrete update that sets `cancel_at = 99` sends exactly one
cancellation-scheduled notification, addressed to intent 1. -/
theorem cancel_at_transition_email_witness :
    ∃ st' effs,
      dispatch exClient 0 exStateWithSummary
          (StripeEvent.subscriptionUpdated exSubUpdatedEvent) =
        Except.ok (st', effs) ∧
      numCancelScheduledEmails effs = 1 ∧
      SideEffect.trialCancellationEmail 1 99 ∈ effs := by
  obtain ⟨st', effs, hd, hc, hm, -, -⟩ :=
    cancel_at_transition_email exClient 0 exStateWithSummary
      exSubUpdatedEvent 1 exIntent (by decide) (by decide)
  refine ⟨st', effs, hd, ?_, hm 99 (by decide) rfl⟩
  rw [hc]
  decide

end EnterpriseAccess
